import Mathlib

/-!
Shallow embedding of the BugTracker API (`src/main.py`): a FastAPI service
backed by two relational tables (`bugs`, `bug_comments`).  Database time
(`NOW()`) is passed explicitly as a `now : Nat` parameter; the SERIAL id
columns become `nextBugId` / `nextCommentId` counters in the state.
-/

namespace BugTracker

/-- A row of the `bugs` table (columns as selected by the handlers). -/
structure Bug where
  bug_id : Nat
  title : String
  description : String
  priority : String
  status : String
  created_at : Nat
  updated_at : Nat
  resolved_at : Option Nat
deriving Repr, DecidableEq

/-- A row of the `bug_comments` table. -/
structure Comment where
  comment_id : Nat
  bug_id : Nat
  author : String
  comment : String
  created_at : Nat
deriving Repr, DecidableEq

/-- The database state: both tables plus the next SERIAL values. -/
structure DBState where
  bugs : List Bug
  comments : List Comment
  nextBugId : Nat
  nextCommentId : Nat
deriving Repr, DecidableEq

/-- HTTP outcome of a handler: a success body with its status code, or an
`HTTPException` status code (FastAPI turns validation failures into 422
before the handler runs; those are modelled by the parse functions). -/
inductive Resp (α : Type) where
  | ok (code : Nat) (body : α)
  | err (code : Nat)
deriving Repr, DecidableEq

/-- Pydantic `BugCreate`: `status` has default `"open"`. -/
structure BugCreate where
  title : String
  description : String
  priority : String
  status : String
deriving Repr, DecidableEq

/-- Pydantic `BugUpdate`: every field `Optional[...] = None`. -/
structure BugUpdate where
  title : Option String
  description : Option String
  priority : Option String
  status : Option String
deriving Repr, DecidableEq

/-- Pydantic `CommentCreate`. -/
structure CommentCreate where
  author : String
  comment : String
deriving Repr, DecidableEq

/-- A JSON field of a request body: missing, explicit `null`, or a string. -/
inductive JField where
  | absent
  | null
  | str (s : String)
deriving Repr, DecidableEq

/-- Raw JSON body of `POST /bugs` (the three required string fields plus the
optional `status`; `none` means the key is missing). -/
structure RawBugCreate where
  title : String
  description : String
  priority : String
  status : Option String
deriving Repr, DecidableEq

/-- Raw JSON body of `PATCH /bugs/{id}`. -/
structure RawBugUpdate where
  title : JField
  description : JField
  priority : JField
  status : JField
deriving Repr, DecidableEq

/-- `Field(min_length=lo, max_length=hi)` on a `str`. -/
def validLen (lo hi : Nat) (s : String) : Bool :=
  lo ≤ s.length && s.length ≤ hi

/-- The `pattern="^(low|medium|high|critical)$"` check. -/
def validPriority (s : String) : Bool :=
  s == "low" || s == "medium" || s == "high" || s == "critical"

/-- The `pattern="^(open|in_progress|closed)$"` check. -/
def validStatus (s : String) : Bool :=
  s == "open" || s == "in_progress" || s == "closed"

/-- Pydantic validation of a `BugCreate` body.  A missing `status` takes the
default `"open"` (pydantic does not re-validate the default); a supplied one
is checked against the status pattern.  Failure is a 422 response. -/
def parseBugCreate (r : RawBugCreate) : Except Nat BugCreate :=
  if validLen 3 200 r.title && validLen 3 5000 r.description
      && validPriority r.priority then
    match r.status with
    | none => .ok ⟨r.title, r.description, r.priority, "open"⟩
    | some st =>
        if validStatus st then .ok ⟨r.title, r.description, r.priority, st⟩
        else .error 422
  else .error 422

/-- Pydantic validation of one `Optional[str]` field: a missing key and an
explicit `null` both become `None` (constraints are skipped for `None`); a
string is checked against its constraint. -/
def parseOptField (valid : String → Bool) (f : JField) : Except Nat (Option String) :=
  match f with
  | .absent => .ok none
  | .null => .ok none
  | .str s => if valid s then .ok (some s) else .error 422

/-- Pydantic validation of a `BugUpdate` body. -/
def parseBugUpdate (r : RawBugUpdate) : Except Nat BugUpdate := do
  let t ← parseOptField (validLen 3 200) r.title
  let d ← parseOptField (validLen 3 5000) r.description
  let p ← parseOptField validPriority r.priority
  let st ← parseOptField validStatus r.status
  .ok ⟨t, d, p, st⟩

/-- `payload.model_dump(exclude_none=True).items()`: the `(key, value)` pairs
of the supplied fields, in field-declaration order.  Mirrors the loop that
builds the dynamic `SET` fragments. -/
def providedFields (p : BugUpdate) : List (String × String) :=
  (match p.title with | some v => [("title", v)] | none => []) ++
  (match p.description with | some v => [("description", v)] | none => []) ++
  (match p.priority with | some v => [("priority", v)] | none => []) ++
  (match p.status with | some v => [("status", v)] | none => [])

/-- One `key = :key` assignment of the dynamic `SET` clause applied to a row. -/
def setField (b : Bug) (kv : String × String) : Bug :=
  if kv.1 = "title" then { b with title := kv.2 }
  else if kv.1 = "description" then { b with description := kv.2 }
  else if kv.1 = "priority" then { b with priority := kv.2 }
  else if kv.1 = "status" then { b with status := kv.2 }
  else b

/-- Effect of the dynamic `UPDATE` statement on one matching row: apply the
supplied assignments; when `status` is among the bound values, additionally
`resolved_at = CASE WHEN :status = 'closed' THEN NOW() ELSE NULL END`
(the `:status` parameter is the supplied value); always `updated_at = NOW()`. -/
def applyUpdate (p : BugUpdate) (now : Nat) (b : Bug) : Bug :=
  let b1 := (providedFields p).foldl setField b
  let b2 :=
    match p.status with
    | some st => { b1 with resolved_at := if st = "closed" then some now else none }
    | none => b1
  { b2 with updated_at := now }

/-- `GET /bugs`: all bugs, `ORDER BY bug_id DESC`.  The SQL ordering is
modelled by a sort with respect to descending `bug_id`. -/
def list_bugs (s : DBState) : List Bug :=
  List.insertionSort (fun a b => b.bug_id ≤ a.bug_id) s.bugs

/-- `POST /bugs` (`status_code=201`): insert a row whose timestamps are
`NOW()` and whose `resolved_at` is
`CASE WHEN :status = 'closed' THEN NOW() ELSE NULL END`; the `RETURNING`
row is the response body.  The `bug_id` SERIAL default is not in `src/`;
it is modelled as the state's fresh-id counter. -/
def create_bug (p : BugCreate) (now : Nat) (s : DBState) : DBState × Resp Bug :=
  let b : Bug :=
    { bug_id := s.nextBugId
      title := p.title
      description := p.description
      priority := p.priority
      status := p.status
      created_at := now
      updated_at := now
      resolved_at := if p.status = "closed" then some now else none }
  ({ s with bugs := s.bugs ++ [b], nextBugId := s.nextBugId + 1 }, .ok 201 b)

/-- `GET /bugs/{bug_id}`: the selected row, or 404 when absent. -/
def get_bug (s : DBState) (id : Nat) : Resp Bug :=
  match s.bugs.find? (fun b => b.bug_id == id) with
  | some b => .ok 200 b
  | none => .err 404

/-- `PATCH /bugs/{bug_id}`: 400 when `model_dump(exclude_none=True)` is
empty; otherwise run the dynamic `UPDATE ... WHERE bug_id = :bug_id`
(rewriting every matching row) and return the first `RETURNING` row,
or 404 when the statement matched no row. -/
def update_bug (id : Nat) (p : BugUpdate) (now : Nat) (s : DBState) :
    DBState × Resp Bug :=
  if providedFields p = [] then (s, .err 400)
  else
    let newBugs := s.bugs.map (fun b => if b.bug_id == id then applyUpdate p now b else b)
    let s' := { s with bugs := newBugs }
    match newBugs.find? (fun b => b.bug_id == id) with
    | some b => (s', .ok 200 b)
    | none => (s', .err 404)

/-- `POST /bugs/{bug_id}/comments` (`status_code=201`): first check
`SELECT 1 FROM bugs WHERE bug_id = :bug_id` (404 when absent), then insert
the comment and return the `RETURNING` row.  The `comment_id` SERIAL and the
`created_at` column default are not in `src/`.  Modelled from the spec:
"inserts with current timestamp", so `created_at := now`. -/
def add_comment (id : Nat) (p : CommentCreate) (now : Nat) (s : DBState) :
    DBState × Resp Comment :=
  if s.bugs.any (fun b => b.bug_id == id) then
    let c : Comment :=
      { comment_id := s.nextCommentId
        bug_id := id
        author := p.author
        comment := p.comment
        created_at := now }
    ({ s with comments := s.comments ++ [c], nextCommentId := s.nextCommentId + 1 },
     .ok 201 c)
  else (s, .err 404)

/-- `GET /bugs/{bug_id}/comments`: the rows with this `bug_id`,
`ORDER BY created_at ASC`, modelled as a sort of the filtered table. -/
def list_comments (s : DBState) (id : Nat) : List Comment :=
  List.insertionSort (fun a b => a.created_at ≤ b.created_at)
    (s.comments.filter (fun c => c.bug_id == id))

/-- The spec's invariant: `resolved_at` is non-null iff `status = closed`. -/
def BugInv (b : Bug) : Prop :=
  b.resolved_at.isSome ↔ b.status = "closed"

instance : IsTotal Bug (fun a b => b.bug_id ≤ a.bug_id) :=
  ⟨fun a b => Nat.le_total b.bug_id a.bug_id⟩

instance : IsTrans Bug (fun a b => b.bug_id ≤ a.bug_id) :=
  ⟨fun _ _ _ h1 h2 => Nat.le_trans h2 h1⟩

instance : IsTotal Comment (fun a b => a.created_at ≤ b.created_at) :=
  ⟨fun a b => Nat.le_total a.created_at b.created_at⟩

instance : IsTrans Comment (fun a b => a.created_at ≤ b.created_at) :=
  ⟨fun _ _ _ h1 h2 => Nat.le_trans h1 h2⟩

theorem applyUpdate_bug_id (p : BugUpdate) (now : Nat) (b : Bug) :
    (applyUpdate p now b).bug_id = b.bug_id := by
  obtain ⟨t, d, pr, st⟩ := p
  cases t <;> cases d <;> cases pr <;> cases st <;>
    simp [applyUpdate, providedFields, setField]

theorem applyUpdate_created_at (p : BugUpdate) (now : Nat) (b : Bug) :
    (applyUpdate p now b).created_at = b.created_at := by
  obtain ⟨t, d, pr, st⟩ := p
  cases t <;> cases d <;> cases pr <;> cases st <;>
    simp [applyUpdate, providedFields, setField]

theorem applyUpdate_title (p : BugUpdate) (now : Nat) (b : Bug) :
    (applyUpdate p now b).title = p.title.getD b.title := by
  obtain ⟨t, d, pr, st⟩ := p
  cases t <;> cases d <;> cases pr <;> cases st <;>
    simp [applyUpdate, providedFields, setField]

theorem applyUpdate_description (p : BugUpdate) (now : Nat) (b : Bug) :
    (applyUpdate p now b).description = p.description.getD b.description := by
  obtain ⟨t, d, pr, st⟩ := p
  cases t <;> cases d <;> cases pr <;> cases st <;>
    simp [applyUpdate, providedFields, setField]

theorem applyUpdate_priority (p : BugUpdate) (now : Nat) (b : Bug) :
    (applyUpdate p now b).priority = p.priority.getD b.priority := by
  obtain ⟨t, d, pr, st⟩ := p
  cases t <;> cases d <;> cases pr <;> cases st <;>
    simp [applyUpdate, providedFields, setField]

theorem applyUpdate_status (p : BugUpdate) (now : Nat) (b : Bug) :
    (applyUpdate p now b).status = p.status.getD b.status := by
  obtain ⟨t, d, pr, st⟩ := p
  cases t <;> cases d <;> cases pr <;> cases st <;>
    simp [applyUpdate, providedFields, setField]

theorem applyUpdate_updated_at (p : BugUpdate) (now : Nat) (b : Bug) :
    (applyUpdate p now b).updated_at = now := by
  obtain ⟨t, d, pr, st⟩ := p
  cases t <;> cases d <;> cases pr <;> cases st <;>
    simp [applyUpdate, providedFields, setField]

theorem applyUpdate_resolved_at (p : BugUpdate) (now : Nat) (b : Bug) :
    (applyUpdate p now b).resolved_at =
      match p.status with
      | some st => if st = "closed" then some now else none
      | none => b.resolved_at := by
  obtain ⟨t, d, pr, st⟩ := p
  cases t <;> cases d <;> cases pr <;> cases st <;>
    simp [applyUpdate, providedFields, setField]

theorem applyUpdate_inv (p : BugUpdate) (now : Nat) (b : Bug) (h : BugInv b) :
    BugInv (applyUpdate p now b) := by
  unfold BugInv at h ⊢
  rw [applyUpdate_resolved_at, applyUpdate_status]
  cases hst : p.status with
  | none => simpa using h
  | some st => by_cases hc : st = "closed" <;> simp [hc]

theorem providedFields_eq_nil (p : BugUpdate) :
    providedFields p = [] ↔
      p.title = none ∧ p.description = none ∧ p.priority = none ∧ p.status = none := by
  obtain ⟨t, d, pr, st⟩ := p
  cases t <;> cases d <;> cases pr <;> cases st <;> simp [providedFields]

theorem update_bug_of_nil (id : Nat) (p : BugUpdate) (now : Nat) (s : DBState)
    (h : providedFields p = []) : update_bug id p now s = (s, Resp.err 400) := by
  simp [update_bug, h]

theorem update_bug_bugs_eq (id : Nat) (p : BugUpdate) (now : Nat) (s : DBState)
    (h : providedFields p ≠ []) :
    (update_bug id p now s).1.bugs =
      s.bugs.map (fun b => if b.bug_id == id then applyUpdate p now b else b) := by
  simp only [update_bug, if_neg h]
  split <;> rfl

theorem update_find?_eq (id : Nat) (p : BugUpdate) (now : Nat) (s : DBState) :
    (s.bugs.map (fun b => if b.bug_id == id then applyUpdate p now b else b)).find?
        (fun b => b.bug_id == id) =
      (s.bugs.find? (fun b => b.bug_id == id)).map
        (fun b => if b.bug_id == id then applyUpdate p now b else b) := by
  rw [List.find?_map]
  congr 2
  funext b
  by_cases hb : b.bug_id == id
  · simp [Function.comp, hb, applyUpdate_bug_id]
  · simp [Function.comp, hb]

theorem map_update_of_no_match (id : Nat) (p : BugUpdate) (now : Nat) (s : DBState)
    (h : ∀ b ∈ s.bugs, b.bug_id ≠ id) :
    s.bugs.map (fun b => if b.bug_id == id then applyUpdate p now b else b) = s.bugs := by
  have := List.map_congr_left
    (l := s.bugs) (f := fun b => if b.bug_id == id then applyUpdate p now b else b)
    (g := fun a => a) (fun b hb => by simp [h b hb])
  simpa using this

theorem update_bug_spec (id : Nat) (p : BugUpdate) (now : Nat) (s : DBState)
    (hpf : providedFields p ≠ []) :
    ((∃ b ∈ s.bugs, b.bug_id = id) →
      ∃ b0, s.bugs.find? (fun b => b.bug_id == id) = some b0 ∧ b0.bug_id = id ∧
        update_bug id p now s =
          ({ s with bugs :=
              s.bugs.map (fun b => if b.bug_id == id then applyUpdate p now b else b) },
           Resp.ok 200 (applyUpdate p now b0))) ∧
    ((∀ b ∈ s.bugs, b.bug_id ≠ id) → update_bug id p now s = (s, Resp.err 404)) := by
  constructor
  · rintro ⟨b, hb, hid⟩
    have hsome : (s.bugs.find? (fun b => b.bug_id == id)).isSome := by
      rw [List.find?_isSome]
      exact ⟨b, hb, by simp [hid]⟩
    obtain ⟨b0, hb0⟩ := Option.isSome_iff_exists.mp hsome
    have hb0id : b0.bug_id = id := by
      have := List.find?_some hb0
      simpa using this
    refine ⟨b0, hb0, hb0id, ?_⟩
    simp only [update_bug, if_neg hpf]
    rw [update_find?_eq, hb0]
    simp [hb0id]
  · intro h
    have hmap := map_update_of_no_match id p now s h
    have hfind : (s.bugs.find? (fun b => b.bug_id == id)) = none := by
      rw [List.find?_eq_none]
      intro b hb
      simp [h b hb]
    simp only [update_bug, if_neg hpf]
    rw [update_find?_eq, hfind, hmap]
    simp

theorem update_bug_fst (uid : Nat) (p : BugUpdate) (now : Nat) (s : DBState)
    (h : providedFields p ≠ []) :
    (update_bug uid p now s).1 =
      { s with bugs :=
          s.bugs.map (fun b => if b.bug_id == uid then applyUpdate p now b else b) } := by
  simp only [update_bug, if_neg h]
  split <;> rfl

/-- C1: for every reachable bug record, `resolved_at` is non-null iff
`status = closed`; the invariant is established by `create_bug` and
preserved by every `update_bug`, including updates not mentioning
`status`. -/
theorem c1_resolved_iff_closed_invariant (p : BugCreate) (q : BugUpdate)
    (uid now : Nat) (s : DBState) (h : ∀ b ∈ s.bugs, BugInv b) :
    (∀ b ∈ (create_bug p now s).1.bugs, BugInv b) ∧
    (∀ b ∈ (update_bug uid q now s).1.bugs, BugInv b) := by
  refine ⟨?_, ?_⟩
  · intro b hb
    simp only [create_bug, List.mem_append, List.mem_singleton] at hb
    rcases hb with hb | hb
    · exact h b hb
    · subst hb
      unfold BugInv
      by_cases hc : p.status = "closed" <;> simp [hc]
  · intro b hb
    by_cases hpf : providedFields q = []
    · rw [update_bug_of_nil uid q now s hpf] at hb
      exact h b hb
    · rw [update_bug_bugs_eq uid q now s hpf] at hb
      simp only [List.mem_map] at hb
      obtain ⟨a, ha, hfa⟩ := hb
      subst hfa
      by_cases hid : a.bug_id == uid
      · simp only [hid, if_true]
        exact applyUpdate_inv q now a (h a ha)
      · simp only [hid]
        simpa using h a ha

/-- C1 witness at a concrete state. -/
theorem c1_resolved_iff_closed_invariant_witness :
    (∀ b ∈ ([] : List Bug), BugInv b) ∧
    (∀ b ∈ (create_bug ⟨"abc", "abcd", "low", "closed"⟩ 5 ⟨[], [], 1, 1⟩).1.bugs,
      BugInv b) :=
  ⟨by simp,
   (c1_resolved_iff_closed_invariant ⟨"abc", "abcd", "low", "closed"⟩
      ⟨none, none, none, some "open"⟩ 0 5 ⟨[], [], 1, 1⟩ (by simp)).1⟩

/-- C2: a valid PATCH whose field set includes `status`, on an existing bug,
yields a 200 response whose `resolved_at` is the current time when the new
status is `"closed"` and null for any other status. -/
theorem c2_patch_status_sets_resolved (uid now : Nat) (p : BugUpdate)
    (st : String) (s : DBState) (hst : p.status = some st)
    (hex : ∃ b ∈ s.bugs, b.bug_id = uid) :
    ∃ b : Bug, (update_bug uid p now s).2 = Resp.ok 200 b ∧ b.status = st ∧
      b.resolved_at = (if st = "closed" then some now else none) := by
  have hpf : providedFields p ≠ [] := by
    rw [Ne, providedFields_eq_nil]
    rintro ⟨-, -, -, h4⟩
    rw [hst] at h4
    exact Option.noConfusion h4
  obtain ⟨b0, -, -, heq⟩ := (update_bug_spec uid p now s hpf).1 hex
  refine ⟨applyUpdate p now b0, by rw [heq], ?_, ?_⟩
  · rw [applyUpdate_status, hst]
    rfl
  · rw [applyUpdate_resolved_at, hst]

/-- C2 witness at a concrete state. -/
theorem c2_patch_status_sets_resolved_witness :
    ((⟨none, none, none, some "closed"⟩ : BugUpdate).status = some "closed") ∧
    (∃ b ∈ [(⟨1, "ttt", "ddd", "low", "open", 0, 0, none⟩ : Bug)], b.bug_id = 1) ∧
    (∃ b : Bug,
      (update_bug 1 ⟨none, none, none, some "closed"⟩ 9
        ⟨[⟨1, "ttt", "ddd", "low", "open", 0, 0, none⟩], [], 2, 1⟩).2 =
        Resp.ok 200 b ∧ b.status = "closed" ∧
      b.resolved_at = (if "closed" = "closed" then some 9 else none)) :=
  ⟨rfl, ⟨⟨1, "ttt", "ddd", "low", "open", 0, 0, none⟩, by simp⟩,
   c2_patch_status_sets_resolved 1 9 ⟨none, none, none, some "closed"⟩ "closed"
     ⟨[⟨1, "ttt", "ddd", "low", "open", 0, 0, none⟩], [], 2, 1⟩ rfl
     ⟨⟨1, "ttt", "ddd", "low", "open", 0, 0, none⟩, by simp⟩⟩

/-- C3: `POST /bugs` returns 201 with the created row appended to the table;
its `created_at` and `updated_at` are the current time and its `resolved_at`
is non-null exactly when the supplied status is `"closed"` (and then equals
the current time). -/
theorem c3_create_bug_correct (p : BugCreate) (now : Nat) (s : DBState) :
    ∃ b : Bug, (create_bug p now s).2 = Resp.ok 201 b ∧
      (create_bug p now s).1.bugs = s.bugs ++ [b] ∧
      b.title = p.title ∧ b.description = p.description ∧
      b.priority = p.priority ∧ b.status = p.status ∧
      b.created_at = now ∧ b.updated_at = now ∧
      (b.resolved_at ≠ none ↔ p.status = "closed") ∧
      (p.status = "closed" → b.resolved_at = some now) := by
  refine ⟨_, rfl, rfl, rfl, rfl, rfl, rfl, rfl, rfl, ?_, ?_⟩
  · by_cases h : p.status = "closed" <;> simp [h]
  · intro h
    simp [h]

/-- C6: posting a comment to an absent bug returns 404 and leaves the state
(in particular the comments table) unchanged; on an existing bug it appends
exactly one comment carrying the current timestamp and returns it with
status 201. -/
theorem c6_add_comment_correct (cid now : Nat) (p : CommentCreate) (s : DBState) :
    ((∀ b ∈ s.bugs, b.bug_id ≠ cid) → add_comment cid p now s = (s, Resp.err 404)) ∧
    ((∃ b ∈ s.bugs, b.bug_id = cid) →
      ∃ c : Comment, (add_comment cid p now s).2 = Resp.ok 201 c ∧
        c.created_at = now ∧ c.bug_id = cid ∧
        c.author = p.author ∧ c.comment = p.comment ∧
        (add_comment cid p now s).1.comments = s.comments ++ [c] ∧
        (add_comment cid p now s).1.bugs = s.bugs) := by
  constructor
  · intro h
    have hany : s.bugs.any (fun b => b.bug_id == cid) = false := by
      rw [List.any_eq_false]
      intro b hb
      simp [h b hb]
    simp [add_comment, hany]
  · rintro ⟨b, hb, hid⟩
    have hany : s.bugs.any (fun b => b.bug_id == cid) = true := by
      rw [List.any_eq_true]
      exact ⟨b, hb, by simp [hid]⟩
    refine ⟨⟨s.nextCommentId, cid, p.author, p.comment, now⟩,
      ?_, rfl, rfl, rfl, rfl, ?_, ?_⟩ <;> simp [add_comment, hany]

/-- C6 witness at a concrete state. -/
theorem c6_add_comment_correct_witness :
    add_comment 7 ⟨"au", "tx"⟩ 3 ⟨[], [], 1, 1⟩ = (⟨[], [], 1, 1⟩, Resp.err 404) :=
  (c6_add_comment_correct 7 3 ⟨"au", "tx"⟩ ⟨[], [], 1, 1⟩).1 (by simp)

/-- C9: `status` is optional in `POST /bugs`: a body with only `title`,
`description` and `priority` (each passing its constraint) parses with the
default status `"open"`, and the created bug has status `"open"` and null
`resolved_at`. -/
theorem c9_create_status_default (r : RawBugCreate)
    (h1 : validLen 3 200 r.title = true)
    (h2 : validLen 3 5000 r.description = true)
    (h3 : validPriority r.priority = true)
    (hs : r.status = none) :
    parseBugCreate r = Except.ok ⟨r.title, r.description, r.priority, "open"⟩ ∧
    ∀ (now : Nat) (s : DBState),
      ∃ b : Bug,
        (create_bug ⟨r.title, r.description, r.priority, "open"⟩ now s).2 =
          Resp.ok 201 b ∧ b.status = "open" ∧ b.resolved_at = none := by
  constructor
  · simp [parseBugCreate, h1, h2, h3, hs]
  · intro now s
    exact ⟨_, rfl, rfl, by simp⟩

/-- C9 witness at a concrete body. -/
theorem c9_create_status_default_witness :
    parseBugCreate ⟨"abc", "abcd", "low", none⟩ =
      Except.ok ⟨"abc", "abcd", "low", "open"⟩ :=
  (c9_create_status_default ⟨"abc", "abcd", "low", none⟩
    (by decide) (by decide) (by decide) rfl).1

/-- C10: a PATCH body whose four fields are all explicit nulls parses to the
same payload as an empty body, and that payload is rejected with 400, the
state unchanged; the applied payload carries no null field values. -/
theorem c10_all_null_patch_is_empty :
    parseBugUpdate ⟨JField.null, JField.null, JField.null, JField.null⟩ =
      parseBugUpdate ⟨JField.absent, JField.absent, JField.absent, JField.absent⟩ ∧
    parseBugUpdate ⟨JField.null, JField.null, JField.null, JField.null⟩ =
      Except.ok ⟨none, none, none, none⟩ ∧
    ∀ (uid now : Nat) (s : DBState),
      update_bug uid ⟨none, none, none, none⟩ now s = (s, Resp.err 400) := by
  refine ⟨rfl, rfl, ?_⟩
  intro uid now s
  exact update_bug_of_nil uid ⟨none, none, none, none⟩ now s rfl

/-- C4: a PATCH with a non-empty field set changes only the supplied fields
of the addressed bug, always sets its `updated_at` to the current time,
leaves `resolved_at` untouched when `status` is not supplied, and leaves
every other bug, the comments table and the id counters unchanged. -/
theorem c4_update_frame (uid now : Nat) (p : BugUpdate) (s : DBState)
    (hpf : providedFields p ≠ []) :
    (update_bug uid p now s).1.comments = s.comments ∧
    (update_bug uid p now s).1.nextBugId = s.nextBugId ∧
    (update_bug uid p now s).1.nextCommentId = s.nextCommentId ∧
    List.Forall₂ (fun b b' : Bug =>
        (b.bug_id ≠ uid → b' = b) ∧
        (b.bug_id = uid →
          b'.bug_id = b.bug_id ∧ b'.created_at = b.created_at ∧
          b'.title = p.title.getD b.title ∧
          b'.description = p.description.getD b.description ∧
          b'.priority = p.priority.getD b.priority ∧
          b'.status = p.status.getD b.status ∧
          b'.updated_at = now ∧
          (p.status = none → b'.resolved_at = b.resolved_at)))
      s.bugs (update_bug uid p now s).1.bugs := by
  rw [update_bug_fst uid p now s hpf]
  refine ⟨rfl, rfl, rfl, ?_⟩
  rw [List.forall₂_map_right_iff, List.forall₂_same]
  intro b hb
  constructor
  · intro hne
    rw [if_neg (by simpa using hne)]
  · intro hid
    rw [if_pos (by simpa using hid)]
    refine ⟨applyUpdate_bug_id p now b, applyUpdate_created_at p now b,
      applyUpdate_title p now b, applyUpdate_description p now b,
      applyUpdate_priority p now b, applyUpdate_status p now b,
      applyUpdate_updated_at p now b, ?_⟩
    intro hst
    rw [applyUpdate_resolved_at, hst]

/-- C4 witness at a concrete state. -/
theorem c4_update_frame_witness :
    providedFields ⟨some "xyz", none, none, none⟩ ≠ [] ∧
    ((update_bug 1 ⟨some "xyz", none, none, none⟩ 9
        ⟨[⟨1, "ttt", "ddd", "low", "open", 0, 0, none⟩], [], 2, 1⟩).1.comments =
      ([] : List Comment) ∧
    (update_bug 1 ⟨some "xyz", none, none, none⟩ 9
        ⟨[⟨1, "ttt", "ddd", "low", "open", 0, 0, none⟩], [], 2, 1⟩).1.nextBugId = 2 ∧
    (update_bug 1 ⟨some "xyz", none, none, none⟩ 9
        ⟨[⟨1, "ttt", "ddd", "low", "open", 0, 0, none⟩], [], 2, 1⟩).1.nextCommentId = 1 ∧
    List.Forall₂ (fun b b' : Bug =>
        (b.bug_id ≠ 1 → b' = b) ∧
        (b.bug_id = 1 →
          b'.bug_id = b.bug_id ∧ b'.created_at = b.created_at ∧
          b'.title = (some "xyz").getD b.title ∧
          b'.description = (none : Option String).getD b.description ∧
          b'.priority = (none : Option String).getD b.priority ∧
          b'.status = (none : Option String).getD b.status ∧
          b'.updated_at = 9 ∧
          ((none : Option String) = none → b'.resolved_at = b.resolved_at)))
      [⟨1, "ttt", "ddd", "low", "open", 0, 0, none⟩]
      (update_bug 1 ⟨some "xyz", none, none, none⟩ 9
        ⟨[⟨1, "ttt", "ddd", "low", "open", 0, 0, none⟩], [], 2, 1⟩).1.bugs) :=
  ⟨by decide,
   c4_update_frame 1 9 ⟨some "xyz", none, none, none⟩
     ⟨[⟨1, "ttt", "ddd", "low", "open", 0, 0, none⟩], [], 2, 1⟩ (by decide)⟩

/-- C5: PATCH answers 400 exactly when no updatable field is supplied, 404
exactly when fields are supplied but no bug has the requested id, and in
either error case the database state is unchanged. -/
theorem c5_update_error_cases (uid now : Nat) (p : BugUpdate) (s : DBState) :
    ((update_bug uid p now s).2 = Resp.err 400 ↔ providedFields p = []) ∧
    ((update_bug uid p now s).2 = Resp.err 404 ↔
      (providedFields p ≠ [] ∧ ∀ b ∈ s.bugs, b.bug_id ≠ uid)) ∧
    (∀ c, (update_bug uid p now s).2 = Resp.err c → (update_bug uid p now s).1 = s) := by
  by_cases hpf : providedFields p = []
  · rw [update_bug_of_nil uid p now s hpf]
    simp [hpf]
  · by_cases hex : ∃ b ∈ s.bugs, b.bug_id = uid
    · obtain ⟨b0, -, -, heq⟩ := (update_bug_spec uid p now s hpf).1 hex
      rw [heq]
      obtain ⟨bb, hbb, hbid⟩ := hex
      refine ⟨by simp [hpf], ?_, by intro c hc; simp at hc⟩
      constructor
      · intro habs
        simp at habs
      · rintro ⟨-, hall⟩
        exact absurd hbid (hall bb hbb)
    · push_neg at hex
      have heq := (update_bug_spec uid p now s hpf).2 hex
      rw [heq]
      refine ⟨by simp [hpf], ?_, fun c _ => rfl⟩
      constructor
      · intro
        exact ⟨hpf, hex⟩
      · intro
        rfl

/-- C5 witness at a concrete state. -/
theorem c5_update_error_cases_witness :
    (update_bug 1 ⟨none, none, none, none⟩ 0 ⟨[], [], 1, 1⟩).2 = Resp.err 400 ↔
      providedFields ⟨none, none, none, none⟩ = [] :=
  (c5_update_error_cases 1 0 ⟨none, none, none, none⟩ ⟨[], [], 1, 1⟩).1

/-- C7: `GET /bugs` returns all bugs (a permutation of the table) sorted by
`bug_id` in strictly descending order, given the primary-key property that
the stored `bug_id`s are distinct. -/
theorem c7_list_bugs_sorted (s : DBState)
    (h : (s.bugs.map Bug.bug_id).Nodup) :
    (list_bugs s).Perm s.bugs ∧
    ((list_bugs s).map Bug.bug_id).Pairwise (fun a b => a > b) := by
  have hperm : (list_bugs s).Perm s.bugs := List.perm_insertionSort _ _
  refine ⟨hperm, ?_⟩
  have hsorted : (list_bugs s).Pairwise (fun a b => b.bug_id ≤ a.bug_id) :=
    List.sorted_insertionSort _ _
  have hnd : ((list_bugs s).map Bug.bug_id).Nodup := ((hperm.map Bug.bug_id).symm).nodup h
  rw [List.pairwise_map]
  rw [List.Nodup, List.pairwise_map] at hnd
  exact List.Pairwise.imp₂ (fun a b h1 h2 => Nat.lt_of_le_of_ne h1 h2.symm) hsorted hnd

/-- C7 witness at a concrete state. -/
theorem c7_list_bugs_sorted_witness :
    (([(⟨1, "t", "d", "low", "open", 0, 0, none⟩ : Bug),
       ⟨2, "u", "e", "low", "open", 0, 0, none⟩].map Bug.bug_id).Nodup) ∧
    ((list_bugs ⟨[⟨1, "t", "d", "low", "open", 0, 0, none⟩,
        ⟨2, "u", "e", "low", "open", 0, 0, none⟩], [], 3, 1⟩).Perm
      [⟨1, "t", "d", "low", "open", 0, 0, none⟩,
       ⟨2, "u", "e", "low", "open", 0, 0, none⟩] ∧
    ((list_bugs ⟨[⟨1, "t", "d", "low", "open", 0, 0, none⟩,
        ⟨2, "u", "e", "low", "open", 0, 0, none⟩], [], 3, 1⟩).map
      Bug.bug_id).Pairwise (fun a b => a > b)) :=
  ⟨by decide,
   c7_list_bugs_sorted ⟨[⟨1, "t", "d", "low", "open", 0, 0, none⟩,
     ⟨2, "u", "e", "low", "open", 0, 0, none⟩], [], 3, 1⟩ (by decide)⟩

/-- C8: `GET /bugs/{id}/comments` returns exactly the comments whose
`bug_id` equals the requested id (a permutation of the filtered table),
sorted by `created_at` ascending. -/
theorem c8_list_comments_sorted (s : DBState) (cid : Nat) :
    (list_comments s cid).Perm (s.comments.filter (fun c => c.bug_id == cid)) ∧
    (list_comments s cid).Pairwise (fun a b => a.created_at ≤ b.created_at) ∧
    ∀ c ∈ list_comments s cid, c.bug_id = cid := by
  refine ⟨List.perm_insertionSort _ _, List.sorted_insertionSort _ _, ?_⟩
  intro c hc
  rw [list_comments, List.mem_insertionSort, List.mem_filter] at hc
  simpa using hc.2

end BugTracker
